import Mathlib

/-!
Shallow embedding of `src/application/emu_window.rs` (the `EmulatorWindow`
pixel-buffer → GPU-texture pipeline) and proofs about it.

Bytes (`u8`) are modelled as `Nat` (the only values written are 0, 255);
`u32` casts are modelled with an explicit `% 2^32`.  GPU calls are modelled
as an explicit trace of operations (`GpuOp`).  `f32` fields are modelled as
`Float`; no claim depends on floating-point arithmetic results.
-/

/-- Modelled from the spec: the `Screen` type of the emulator subsystem is
not part of the sources here; the spec fixes the framebuffer ("PixelSource")
at the classic 64×32 video resolution, queryable pixel-by-pixel via
`get_pixel`.  `Screen.WIDTH` is that fixed width. -/
def Screen.WIDTH : Nat := 64

/-- Modelled from the spec: fixed framebuffer height (see `Screen.WIDTH`). -/
def Screen.HEIGHT : Nat := 32

/-- `pub struct RGBA { r g b a : f32 }`. -/
structure RGBA where
  r : Float
  g : Float
  b : Float
  a : Float

/-- `RGBA::to_array`: returns a fresh `[f32; 4]` array `[r, g, b, a]`. -/
def RGBA.to_array (c : RGBA) : List Float :=
  [c.r, c.g, c.b, c.a]

/-- `wgpu::TextureDimension`. -/
inductive TextureDimension where
  | D1
  | D2
  | D3
deriving DecidableEq

/-- `wgpu::TextureFormat` (only the variant this file uses). -/
inductive TextureFormat where
  | Rgba8Unorm
deriving DecidableEq

/-- `wgpu::TextureUsage::COPY_DST` bitflag (value 2 in wgpu 0.7). -/
def TextureUsage.COPY_DST : Nat := 2

/-- `wgpu::TextureUsage::SAMPLED` bitflag (value 4 in wgpu 0.7). -/
def TextureUsage.SAMPLED : Nat := 4

/-- `wgpu::Extent3d`. -/
structure Extent3d where
  width : Nat
  height : Nat
  depth_or_array_layers : Nat
deriving DecidableEq

/-- `wgpu::Origin3d`. -/
structure Origin3d where
  x : Nat
  y : Nat
  z : Nat
deriving DecidableEq

/-- `imgui_wgpu::TextureConfig`: the named configuration record consumed by
texture creation. -/
structure TextureConfig where
  label : Option String
  size : Extent3d
  mip_level_count : Nat
  sample_count : Nat
  dimension : TextureDimension
  format : Option TextureFormat
  usage : Nat
deriving DecidableEq

/-- `imgui_wgpu::Texture`: a GPU texture; we keep the configuration it was
created with (`Texture::new(&device, &renderer, texture_config)`). -/
structure Texture where
  config : TextureConfig
deriving DecidableEq

/-- `imgui::Textures<Texture>`: an id-map handing out fresh `TextureId`s on
insertion. -/
structure Textures where
  next_id : Nat
  map : List (Nat × Texture)
deriving DecidableEq

/-- `Textures::get(id) -> Option<&Texture>`. -/
def Textures.get (t : Textures) (id : Nat) : Option Texture :=
  (t.map.find? (fun p => p.1 == id)).map (fun p => p.2)

/-- `Textures::insert(texture) -> TextureId`: returns the updated map and the
fresh id. -/
def Textures.insert (t : Textures) (tex : Texture) : Textures × Nat :=
  ({ next_id := t.next_id + 1, map := (t.next_id, tex) :: t.map }, t.next_id)

/-- `imgui_wgpu::Renderer` (the part this file touches: its texture pool). -/
structure Renderer where
  textures : Textures
deriving DecidableEq

/-- `2^32`: modulus for `as u32` casts. -/
def U32LIMIT : Nat := 4294967296

/-- `std::num::NonZeroU32::new`: `none` iff the argument is zero. -/
def NonZeroU32.new (n : Nat) : Option Nat :=
  if n = 0 then none else some n

/-- `wgpu::ImageDataLayout` (row pitch expressed with `Option` for the
`Option<NonZeroU32>` fields). -/
structure ImageDataLayout where
  offset : Nat
  bytes_per_row : Option Nat
  rows_per_image : Option Nat
deriving DecidableEq

/-- Trace of GPU-visible operations issued by `update_texture`:
staging-buffer creation (`device.create_buffer_init`), the recorded
buffer-to-texture copy, and the queue submission (`queue.submit`). -/
inductive GpuOp where
  | createBufferInit (contents : List Nat)
  | copyBufferToTexture (contents : List Nat) (src_layout : ImageDataLayout)
      (texId : Nat) (mip_level : Nat) (origin : Origin3d) (extent : Extent3d)
  | submit
deriving DecidableEq

/-- `pub struct EmulatorWindow` (fields as in the source; `data` is the RGBA
byte buffer, `tex_id` the imgui texture id). -/
structure EmulatorWindow where
  data : List Nat
  width : Nat
  height : Nat
  scale : Float
  color : RGBA
  tex_id : Nat

/-- The loop body's pixel value `v`:
`if emulator.screen.get_pixel(x, y) == 1 { 255u8 } else { 0 }`. -/
def pixelByte (screen : Nat → Nat → Nat) (x y : Nat) : Nat :=
  if screen x y = 1 then 255 else 0

/-- `self.data[pos..pos + 4].copy_from_slice(&[v, v, v, 255u8])`, expressed
as four element writes. -/
def writeRGBA (d : List Nat) (pos v : Nat) : List Nat :=
  (((d.set pos v).set (pos + 1) v).set (pos + 2) v).set (pos + 3) 255

/-- The inner `for y in 0..self.height` loop of `EmulatorWindow::update`, at
a fixed `x`; `innerLoop screen w x d h` is the buffer after iterations
`y = 0, …, h-1` (in that order), with `pos = (y * 4 * w) + (x * 4)`. -/
def innerLoop (screen : Nat → Nat → Nat) (w x : Nat) (d : List Nat) : Nat → List Nat
  | 0 => d
  | h + 1 => writeRGBA (innerLoop screen w x d h) (h * 4 * w + x * 4) (pixelByte screen x h)

/-- The outer `for x in 0..self.width` loop of `EmulatorWindow::update`;
`outerLoop screen w h d n` is the buffer after iterations `x = 0, …, n-1`. -/
def outerLoop (screen : Nat → Nat → Nat) (w h : Nat) (d : List Nat) : Nat → List Nat
  | 0 => d
  | n + 1 => innerLoop screen w n (outerLoop screen w h d n) h

/-- The full conversion loop of `EmulatorWindow::update` applied to buffer
`d`: both loops run to completion (`x` up to `w`, `y` up to `h`). -/
def updateData (screen : Nat → Nat → Nat) (w h : Nat) (d : List Nat) : List Nat :=
  outerLoop screen w h d w

/-- The `ImageDataLayout` built in `EmulatorWindow::update_texture`:
`{ offset: 0, bytes_per_row: NonZeroU32::new(bytes as u32 / self.height as u32),
   rows_per_image: NonZeroU32::new(self.height as u32) }`
where `bytes = self.data.len()`. -/
def imgLayout (self : EmulatorWindow) : ImageDataLayout :=
  { offset := 0
    bytes_per_row := NonZeroU32.new ((self.data.length % U32LIMIT) / (self.height % U32LIMIT))
    rows_per_image := NonZeroU32.new (self.height % U32LIMIT) }

/-- `EmulatorWindow::update_texture`: stages `self.data` into a copy-source
buffer, then records a buffer-to-texture copy into
`renderer.textures.get(id)?` (the `?` returns `None` early) at mip level 0,
origin (0,0,0), extent `width × height × 1`, and submits.  Returns the
`Option<bool>` result together with the trace of GPU operations reached. -/
def update_texture (self : EmulatorWindow) (id : Nat) (renderer : Renderer) :
    Option Bool × List GpuOp :=
  match renderer.textures.get id with
  | none => (none, [GpuOp.createBufferInit self.data])
  | some _tex =>
      (some true,
       [GpuOp.createBufferInit self.data,
        GpuOp.copyBufferToTexture self.data (imgLayout self) id 0
          { x := 0, y := 0, z := 0 }
          { width := self.width, height := self.height, depth_or_array_layers := 1 },
        GpuOp.submit])

/-- `EmulatorWindow::update`: runs the conversion loop over
`emulator.screen.get_pixel`, then calls `self.update_texture(self.tex_id, …)`
and discards its `Option<bool>` result. -/
def update (self : EmulatorWindow) (screen : Nat → Nat → Nat) (renderer : Renderer) :
    EmulatorWindow × List GpuOp :=
  let self' : EmulatorWindow :=
    { self with data := updateData screen self.width self.height self.data }
  let r := update_texture self' self.tex_id renderer
  (self', r.2)

/-- `EmulatorWindow::create_texture`: builds the fixed `TextureConfig`,
creates the texture and inserts it into the renderer's pool, returning the
fresh `TextureId`. -/
def create_texture (renderer : Renderer) (width height : Nat) : Renderer × Nat :=
  let texture_config : TextureConfig :=
    { label := none
      size := { width := width, height := height, depth_or_array_layers := 1 }
      mip_level_count := 1
      sample_count := 1
      dimension := TextureDimension.D2
      format := some TextureFormat.Rgba8Unorm
      usage := TextureUsage.SAMPLED ||| TextureUsage.COPY_DST }
  let texture : Texture := { config := texture_config }
  let ins := renderer.textures.insert texture
  ({ textures := ins.1 }, ins.2)

/-- `EmulatorWindow::new`: zero-filled RGBA buffer of
`Screen::WIDTH * Screen::HEIGHT * 4` bytes, fixed scale and color, and the
texture created once at construction. -/
def EmulatorWindow.new (renderer : Renderer) : EmulatorWindow × Renderer :=
  let ct := create_texture renderer Screen.WIDTH Screen.HEIGHT
  ({ data := List.replicate (Screen.WIDTH * Screen.HEIGHT * 4) 0
     width := Screen.WIDTH
     height := Screen.HEIGHT
     scale := 9.0
     color := { r := 0.19, g := 0.66, b := 0.38, a := 1.0 }
     tex_id := ct.2 },
   ct.1)

/-- The widget calls issued by `EmulatorWindow::render`: the `Image` draw
(texture id, size `(width*scale, height*scale)`, tint `self.color.to_array()`)
and the final value of the temporary array handed mutably to `ColorEdit`. -/
structure RenderCalls where
  image_tex_id : Nat
  image_size : Float × Float
  tint_col : List Float
  color_edit_value : List Float

/-- `EmulatorWindow::render`: draws the image tinted by `self.color`, then
builds `ColorEdit` on `&mut self.color.to_array()` — a mutable borrow of a
temporary array, modelled by applying the user's edit `edit` to a fresh copy.
Returns the (unchanged) window state and the issued widget calls. -/
def render (self : EmulatorWindow) (edit : List Float → List Float) :
    EmulatorWindow × RenderCalls :=
  (self,
   { image_tex_id := self.tex_id
     image_size := (Float.ofNat self.width * self.scale, Float.ofNat self.height * self.scale)
     tint_col := self.color.to_array
     color_edit_value := edit self.color.to_array })

/-- The 64×32 framebuffer of the two-pixel scenario: every pixel unset
except (0,0) and (63,31). -/
def screenTwoPixels : Nat → Nat → Nat := fun x y =>
  if (x = 0 ∧ y = 0) ∨ (x = 63 ∧ y = 31) then 1 else 0

/-- The texture `EmulatorWindow::create_texture` builds at the emulator's
fixed resolution: the exact `TextureConfig` of the source, spelled out. -/
def createdTexture : Texture :=
  { config :=
    { label := none
      size := { width := Screen.WIDTH, height := Screen.HEIGHT, depth_or_array_layers := 1 }
      mip_level_count := 1
      sample_count := 1
      dimension := TextureDimension.D2
      format := some TextureFormat.Rgba8Unorm
      usage := TextureUsage.SAMPLED ||| TextureUsage.COPY_DST } }

/-- An all-unset framebuffer (every `get_pixel` call yields 0). -/
def zeroScreen : Nat → Nat → Nat := fun _ _ => 0

/-- A renderer whose texture pool is empty. -/
def emptyRenderer : Renderer :=
  { textures := { next_id := 0, map := [] } }

/-- A renderer holding one texture under id 0. -/
def rendererOne : Renderer :=
  { textures := { next_id := 1, map := [(0, createdTexture)] } }

/-- A full-resolution window state (as built by `EmulatorWindow::new`). -/
def witWindow : EmulatorWindow :=
  { data := List.replicate (Screen.WIDTH * Screen.HEIGHT * 4) 0
    width := Screen.WIDTH
    height := Screen.HEIGHT
    scale := 9.0
    color := { r := 0.19, g := 0.66, b := 0.38, a := 1.0 }
    tex_id := 0 }

/-- A 1×1 window state with a zeroed 4-byte buffer. -/
def smallWindow : EmulatorWindow :=
  { data := [0, 0, 0, 0]
    width := 1
    height := 1
    scale := 1.0
    color := { r := 0.0, g := 0.0, b := 0.0, a := 0.0 }
    tex_id := 0 }

/-- A 1×1 window state with different prior buffer contents. -/
def smallWindow2 : EmulatorWindow :=
  { data := [9, 9, 9, 9]
    width := 1
    height := 1
    scale := 1.0
    color := { r := 0.0, g := 0.0, b := 0.0, a := 0.0 }
    tex_id := 0 }

/-! ### Basic write/loop lemmas -/

theorem writeRGBA_length (d : List Nat) (pos v : Nat) :
    (writeRGBA d pos v).length = d.length := by
  simp [writeRGBA]

theorem writeRGBA_getElem_of_lt (d : List Nat) (pos v i : Nat) (hi : i < 4)
    (hb : pos + 3 < d.length) :
    (writeRGBA d pos v)[pos + i]? = some (if i = 3 then 255 else v) := by
  unfold writeRGBA
  interval_cases i
  · simp only [Nat.add_zero]
    rw [List.getElem?_set_ne (by omega), List.getElem?_set_ne (by omega),
      List.getElem?_set_ne (by omega), List.getElem?_set_self (by omega)]
    simp
  · rw [List.getElem?_set_ne (by omega), List.getElem?_set_ne (by omega),
      List.getElem?_set_self (by simp; omega)]
    simp
  · rw [List.getElem?_set_ne (by omega), List.getElem?_set_self (by simp; omega)]
    simp
  · rw [List.getElem?_set_self (by simp; omega)]
    simp

theorem writeRGBA_getElem_untouched (d : List Nat) (pos v q : Nat)
    (hq : q < pos ∨ pos + 4 ≤ q) :
    (writeRGBA d pos v)[q]? = d[q]? := by
  unfold writeRGBA
  rw [List.getElem?_set_ne (by omega), List.getElem?_set_ne (by omega),
    List.getElem?_set_ne (by omega), List.getElem?_set_ne (by omega)]

theorem innerLoop_length (screen : Nat → Nat → Nat) (w x : Nat) (d : List Nat) (h : Nat) :
    (innerLoop screen w x d h).length = d.length := by
  induction h with
  | zero => rfl
  | succ h ih => simp [innerLoop, writeRGBA_length, ih]

theorem outerLoop_length (screen : Nat → Nat → Nat) (w h : Nat) (d : List Nat) (n : Nat) :
    (outerLoop screen w h d n).length = d.length := by
  induction n with
  | zero => rfl
  | succ n ih => simp [outerLoop, innerLoop_length, ih]

theorem updateData_length (screen : Nat → Nat → Nat) (w h : Nat) (d : List Nat) :
    (updateData screen w h d).length = d.length :=
  outerLoop_length screen w h d w

/-! ### Index arithmetic for pixel slots -/

theorem slot_lt_of_row_lt (w y0 h i : Nat) (hw : 0 < w) (hi : i < 4) (hy : y0 < h) :
    y0 * 4 * w + i < h * 4 * w := by
  have h1 : y0 * 4 * w + i < y0 * 4 * w + 4 * w := by
    have hiw : i < 4 * w := by omega
    omega
  have h2 : y0 * 4 * w + 4 * w = (y0 + 1) * 4 * w := by ring
  have h3 : (y0 + 1) * 4 * w ≤ h * 4 * w :=
    Nat.mul_le_mul_right w (Nat.mul_le_mul_right 4 hy)
  omega

theorem slot_bound (w h x y i : Nat) (hx : x < w) (hy : y < h) (hi : i < 4) :
    y * 4 * w + x * 4 + i < w * h * 4 := by
  have hw : 0 < w := by omega
  have h1 : x * 4 + i < 4 * w := by omega
  have h2 : y * 4 * w + (x * 4 + i) < y * 4 * w + 4 * w := by omega
  have h3 : y * 4 * w + 4 * w = (y + 1) * 4 * w := by ring
  have h4 : (y + 1) * 4 * w ≤ h * 4 * w :=
    Nat.mul_le_mul_right w (Nat.mul_le_mul_right 4 hy)
  have h5 : h * 4 * w = w * h * 4 := by ring
  omega

theorem slot_inj (w x x' y y' i i' : Nat) (hx : x < w) (hx' : x' < w)
    (hi : i < 4) (hi' : i' < 4)
    (heq : y * 4 * w + x * 4 + i = y' * 4 * w + x' * 4 + i') :
    y = y' ∧ x = x' ∧ i = i' := by
  have hw : 0 < w := by omega
  have e1 : y * 4 * w + x * 4 + i = (x + w * y) * 4 + i := by ring
  have e2 : y' * 4 * w + x' * 4 + i' = (x' + w * y') * 4 + i' := by ring
  have h4 : (x + w * y) * 4 + i = (x' + w * y') * 4 + i' := by omega
  have hq : x + w * y = x' + w * y' ∧ i = i' := by omega
  have hx2 : x = x' := by
    have hm : (x + w * y) % w = (x' + w * y') % w := by rw [hq.1]
    rwa [Nat.add_mul_mod_self_left, Nat.add_mul_mod_self_left,
      Nat.mod_eq_of_lt hx, Nat.mod_eq_of_lt hx'] at hm
  have hy2 : y = y' := by
    have hd : (x + w * y) / w = (x' + w * y') / w := by rw [hq.1]
    rwa [Nat.add_mul_div_left x y hw, Nat.add_mul_div_left x' y' hw,
      Nat.div_eq_of_lt hx, Nat.div_eq_of_lt hx', Nat.zero_add, Nat.zero_add] at hd
  exact ⟨hy2, hx2, hq.2⟩

theorem pos_decompose (w h p : Nat) (hw : 0 < w) (hp : p < w * h * 4) :
    ∃ x y i, x < w ∧ y < h ∧ i < 4 ∧ p = y * 4 * w + x * 4 + i := by
  refine ⟨p / 4 % w, p / 4 / w, p % 4, Nat.mod_lt _ hw, ?_, Nat.mod_lt _ (by omega), ?_⟩
  · have h1 : p / 4 < w * h := by
      rw [Nat.div_lt_iff_lt_mul (by omega)]
      exact hp
    rw [Nat.div_lt_iff_lt_mul hw, Nat.mul_comm h w]
    exact h1
  · have e1 : 4 * (p / 4) + p % 4 = p := Nat.div_add_mod p 4
    have e2 : w * (p / 4 / w) + p / 4 % w = p / 4 := Nat.div_add_mod (p / 4) w
    calc p = 4 * (p / 4) + p % 4 := e1.symm
      _ = 4 * (w * (p / 4 / w) + p / 4 % w) + p % 4 := by rw [e2]
      _ = p / 4 / w * 4 * w + p / 4 % w * 4 + p % 4 := by ring

/-! ### Characterization of the conversion loop -/

theorem innerLoop_getElem_untouched (screen : Nat → Nat → Nat) (w x : Nat) (d : List Nat)
    (h q : Nat) (hq : ∀ y i, y < h → i < 4 → q ≠ y * 4 * w + x * 4 + i) :
    (innerLoop screen w x d h)[q]? = d[q]? := by
  induction h with
  | zero => rfl
  | succ h ih =>
    have hside : q < h * 4 * w + x * 4 ∨ (h * 4 * w + x * 4) + 4 ≤ q := by
      have h0 := hq h 0 (by omega) (by omega)
      have h1 := hq h 1 (by omega) (by omega)
      have h2 := hq h 2 (by omega) (by omega)
      have h3 := hq h 3 (by omega) (by omega)
      omega
    calc (innerLoop screen w x d (h + 1))[q]?
        = (innerLoop screen w x d h)[q]? :=
          writeRGBA_getElem_untouched _ _ _ q hside
      _ = d[q]? := ih (fun y i hy hi => hq y i (by omega) hi)

theorem innerLoop_getElem_written (screen : Nat → Nat → Nat) (w x : Nat) (d : List Nat)
    (h y0 i : Nat) (hw : 0 < w) (hy : y0 < h) (hi : i < 4)
    (hb : y0 * 4 * w + x * 4 + 3 < d.length) :
    (innerLoop screen w x d h)[y0 * 4 * w + x * 4 + i]?
      = some (if i = 3 then 255 else pixelByte screen x y0) := by
  induction h with
  | zero => omega
  | succ h ih =>
    by_cases hcase : y0 = h
    · subst hcase
      have hlen : y0 * 4 * w + x * 4 + 3 < (innerLoop screen w x d y0).length := by
        rw [innerLoop_length]; exact hb
      exact writeRGBA_getElem_of_lt (innerLoop screen w x d y0) (y0 * 4 * w + x * 4)
        (pixelByte screen x y0) i hi hlen
    · have hylt : y0 < h := by omega
      calc (innerLoop screen w x d (h + 1))[y0 * 4 * w + x * 4 + i]?
          = (innerLoop screen w x d h)[y0 * 4 * w + x * 4 + i]? := by
            apply writeRGBA_getElem_untouched
            left
            have hr : y0 * 4 * w + i < h * 4 * w := slot_lt_of_row_lt w y0 h i hw hi hylt
            omega
        _ = some (if i = 3 then 255 else pixelByte screen x y0) := ih hylt

theorem outerLoop_getElem_written (screen : Nat → Nat → Nat) (w h : Nat) (d : List Nat)
    (n x0 y0 i : Nat) (hn : n ≤ w) (hx : x0 < n) (hy : y0 < h) (hi : i < 4)
    (hd : d.length = w * h * 4) :
    (outerLoop screen w h d n)[y0 * 4 * w + x0 * 4 + i]?
      = some (if i = 3 then 255 else pixelByte screen x0 y0) := by
  induction n with
  | zero => omega
  | succ n ih =>
    have hw : 0 < w := by omega
    by_cases hcase : x0 = n
    · subst hcase
      apply innerLoop_getElem_written screen w x0 (outerLoop screen w h d x0) h y0 i hw hy hi
      rw [outerLoop_length, hd]
      exact slot_bound w h x0 y0 3 (by omega) hy (by omega)
    · have hxlt : x0 < n := by omega
      calc (outerLoop screen w h d (n + 1))[y0 * 4 * w + x0 * 4 + i]?
          = (outerLoop screen w h d n)[y0 * 4 * w + x0 * 4 + i]? := by
            apply innerLoop_getElem_untouched
            intro y i' hy' hi' heq
            exact hcase (slot_inj w x0 n y0 y i i' (by omega) (by omega) hi hi' heq).2.1
        _ = some (if i = 3 then 255 else pixelByte screen x0 y0) := ih (by omega) hxlt

theorem updateData_getElem (screen : Nat → Nat → Nat) (w h : Nat) (d : List Nat)
    (x y i : Nat) (hx : x < w) (hy : y < h) (hi : i < 4) (hd : d.length = w * h * 4) :
    (updateData screen w h d)[y * 4 * w + x * 4 + i]?
      = some (if i = 3 then 255 else pixelByte screen x y) :=
  outerLoop_getElem_written screen w h d w x y i (Nat.le_refl w) hx hy hi hd

theorem updateData_ext (screen : Nat → Nat → Nat) (w h : Nat) (d1 d2 : List Nat)
    (h1 : d1.length = w * h * 4) (h2 : d2.length = w * h * 4) :
    updateData screen w h d1 = updateData screen w h d2 := by
  apply List.ext_getElem?
  intro p
  by_cases hp : p < w * h * 4
  · have hw : 0 < w := by
      rcases Nat.eq_zero_or_pos w with hw0 | hw0
      · subst hw0; simp at hp
      · exact hw0
    obtain ⟨x, y, i, hx, hy, hi, hpe⟩ := pos_decompose w h p hw hp
    rw [hpe, updateData_getElem screen w h d1 x y i hx hy hi h1,
      updateData_getElem screen w h d2 x y i hx hy hi h2]
  · have e1 : (updateData screen w h d1)[p]? = none := by
      apply List.getElem?_eq_none
      rw [updateData_length, h1]; omega
    have e2 : (updateData screen w h d2)[p]? = none := by
      apply List.getElem?_eq_none
      rw [updateData_length, h2]; omega
    rw [e1, e2]

/-! ### Claim theorems -/

/-- C1: for every framebuffer of size `WIDTH×HEIGHT` and every coordinate
`(x, y)` with `x < WIDTH`, `y < HEIGHT`, the RGBA buffer produced by the
conversion loop in `EmulatorWindow::update` contains, at byte offset
`(y*4*WIDTH)+(x*4)`, the four bytes `[255,255,255,255]` if `get_pixel(x,y)`
returns 1, and `[0,0,0,255]` otherwise. -/
theorem update_pixel_bytes (screen : Nat → Nat → Nat) (self : EmulatorWindow)
    (renderer : Renderer) (x y : Nat)
    (hw : self.width = Screen.WIDTH) (hh : self.height = Screen.HEIGHT)
    (hd : self.data.length = Screen.WIDTH * Screen.HEIGHT * 4)
    (hx : x < Screen.WIDTH) (hy : y < Screen.HEIGHT) :
    (((update self screen renderer).1).data)[y * 4 * Screen.WIDTH + x * 4]?
        = some (if screen x y = 1 then 255 else 0) ∧
    (((update self screen renderer).1).data)[y * 4 * Screen.WIDTH + x * 4 + 1]?
        = some (if screen x y = 1 then 255 else 0) ∧
    (((update self screen renderer).1).data)[y * 4 * Screen.WIDTH + x * 4 + 2]?
        = some (if screen x y = 1 then 255 else 0) ∧
    (((update self screen renderer).1).data)[y * 4 * Screen.WIDTH + x * 4 + 3]?
        = some 255 := by
  have hdata : ((update self screen renderer).1).data
      = updateData screen Screen.WIDTH Screen.HEIGHT self.data := by
    show updateData screen self.width self.height self.data = _
    rw [hw, hh]
  rw [hdata]
  refine ⟨?_, ?_, ?_, ?_⟩
  · simpa [pixelByte] using
      updateData_getElem screen Screen.WIDTH Screen.HEIGHT self.data x y 0 hx hy (by omega) hd
  · simpa [pixelByte] using
      updateData_getElem screen Screen.WIDTH Screen.HEIGHT self.data x y 1 hx hy (by omega) hd
  · simpa [pixelByte] using
      updateData_getElem screen Screen.WIDTH Screen.HEIGHT self.data x y 2 hx hy (by omega) hd
  · simpa using
      updateData_getElem screen Screen.WIDTH Screen.HEIGHT self.data x y 3 hx hy (by omega) hd

theorem update_pixel_bytes_witness :
    (witWindow.width = Screen.WIDTH ∧ witWindow.height = Screen.HEIGHT ∧
     witWindow.data.length = Screen.WIDTH * Screen.HEIGHT * 4 ∧
     3 < Screen.WIDTH ∧ 5 < Screen.HEIGHT) ∧
    ((((update witWindow zeroScreen emptyRenderer).1).data)[5 * 4 * Screen.WIDTH + 3 * 4]?
        = some (if zeroScreen 3 5 = 1 then 255 else 0) ∧
     (((update witWindow zeroScreen emptyRenderer).1).data)[5 * 4 * Screen.WIDTH + 3 * 4 + 1]?
        = some (if zeroScreen 3 5 = 1 then 255 else 0) ∧
     (((update witWindow zeroScreen emptyRenderer).1).data)[5 * 4 * Screen.WIDTH + 3 * 4 + 2]?
        = some (if zeroScreen 3 5 = 1 then 255 else 0) ∧
     (((update witWindow zeroScreen emptyRenderer).1).data)[5 * 4 * Screen.WIDTH + 3 * 4 + 3]?
        = some 255) :=
  ⟨⟨rfl, rfl, by simp [witWindow], by decide, by decide⟩,
   update_pixel_bytes zeroScreen witWindow emptyRenderer 3 5 rfl rfl
     (by simp [witWindow]) (by decide) (by decide)⟩

/-- C4: the RGBA buffer (`data` field) has length exactly
`WIDTH*HEIGHT*4` after construction, `update` and `render` never change the
buffer's length. -/
theorem data_length_invariant :
    (∀ r : Renderer,
      ((EmulatorWindow.new r).1).data.length = Screen.WIDTH * Screen.HEIGHT * 4) ∧
    (∀ (self : EmulatorWindow) (screen : Nat → Nat → Nat) (renderer : Renderer),
      ((update self screen renderer).1).data.length = self.data.length) ∧
    (∀ (self : EmulatorWindow) (edit : List Float → List Float),
      ((render self edit).1).data.length = self.data.length) := by
  refine ⟨fun r => ?_, fun self screen renderer => ?_, fun self edit => rfl⟩
  · simp [EmulatorWindow.new]
  · exact updateData_length screen self.width self.height self.data

/-- C10: `EmulatorWindow::render` never modifies the window state: the
`ColorEdit` widget receives (a mutable reference to) the temporary array
returned by `self.color.to_array()`, so `color` and all other fields are
unchanged and user edits never persist into the tint color. -/
theorem render_pure (self : EmulatorWindow) (edit : List Float → List Float) :
    (render self edit).1 = self ∧
    ((render self edit).1).color = self.color ∧
    (render self edit).2.color_edit_value = edit self.color.to_array :=
  ⟨rfl, rfl, rfl⟩

/-- C2: when the handle lookup succeeds, the copy command recorded by
`EmulatorWindow::update_texture` uses exactly the layout
`{offset: 0, bytes_per_row: total_bytes/height = width*4, rows_per_image: height}`
(the buffer length being `width*height*4`), copy extent
`{width, height, depth=1}`, origin `(0,0,0)`, and mip level 0. -/
theorem update_texture_layout (self : EmulatorWindow) (id : Nat) (renderer : Renderer)
    (tex : Texture) (hget : renderer.textures.get id = some tex)
    (hlen : self.data.length = self.width * self.height * 4)
    (hwpos : 0 < self.width) (hhpos : 0 < self.height)
    (hbound : self.width * self.height * 4 < U32LIMIT) (hh32 : self.height < U32LIMIT) :
    update_texture self id renderer
      = (some true,
         [GpuOp.createBufferInit self.data,
          GpuOp.copyBufferToTexture self.data
            { offset := 0
              bytes_per_row := some (self.width * 4)
              rows_per_image := some self.height }
            id 0 { x := 0, y := 0, z := 0 }
            { width := self.width, height := self.height, depth_or_array_layers := 1 },
          GpuOp.submit]) := by
  have hlay : imgLayout self
      = { offset := 0
          bytes_per_row := some (self.width * 4)
          rows_per_image := some self.height } := by
    unfold imgLayout NonZeroU32.new
    have e1 : self.data.length % U32LIMIT = self.data.length :=
      Nat.mod_eq_of_lt (by omega)
    have e2 : self.height % U32LIMIT = self.height := Nat.mod_eq_of_lt hh32
    have e3 : self.width * self.height * 4 / self.height = self.width * 4 := by
      rw [show self.width * self.height * 4 = self.width * 4 * self.height by ring]
      exact Nat.mul_div_cancel _ hhpos
    rw [e1, e2, hlen, e3, if_neg (by omega), if_neg (by omega)]
  unfold update_texture
  rw [hget, hlay]

theorem update_texture_layout_witness :
    (rendererOne.textures.get 0 = some createdTexture ∧
     smallWindow.data.length = smallWindow.width * smallWindow.height * 4 ∧
     0 < smallWindow.width ∧ 0 < smallWindow.height ∧
     smallWindow.width * smallWindow.height * 4 < U32LIMIT ∧
     smallWindow.height < U32LIMIT) ∧
    update_texture smallWindow 0 rendererOne
      = (some true,
         [GpuOp.createBufferInit smallWindow.data,
          GpuOp.copyBufferToTexture smallWindow.data
            { offset := 0
              bytes_per_row := some (smallWindow.width * 4)
              rows_per_image := some smallWindow.height }
            0 0 { x := 0, y := 0, z := 0 }
            { width := smallWindow.width, height := smallWindow.height,
              depth_or_array_layers := 1 },
          GpuOp.submit]) :=
  ⟨⟨rfl, rfl, by decide, by decide, by decide, by decide⟩,
   update_texture_layout smallWindow 0 rendererOne createdTexture rfl rfl
     (by decide) (by decide) (by decide) (by decide)⟩

/-- C3: calling `EmulatorWindow::update_texture` with a texture id that was
never inserted (the lookup yields no texture) returns `None` rather than a
success value, and `queue.submit` is not reached (only the staging buffer is
created). -/
theorem update_texture_invalid_handle (self : EmulatorWindow) (id : Nat)
    (renderer : Renderer) (hget : renderer.textures.get id = none) :
    update_texture self id renderer = (none, [GpuOp.createBufferInit self.data]) ∧
    GpuOp.submit ∉ (update_texture self id renderer).2 := by
  have he : update_texture self id renderer
      = (none, [GpuOp.createBufferInit self.data]) := by
    unfold update_texture
    rw [hget]
  refine ⟨he, ?_⟩
  rw [he]
  simp

theorem update_texture_invalid_handle_witness :
    emptyRenderer.textures.get 0 = none ∧
    (update_texture smallWindow 0 emptyRenderer
        = (none, [GpuOp.createBufferInit smallWindow.data]) ∧
     GpuOp.submit ∉ (update_texture smallWindow 0 emptyRenderer).2) :=
  ⟨rfl, update_texture_invalid_handle smallWindow 0 emptyRenderer rfl⟩

/-- C8: for a 1×1 window the conversion produces a 4-byte image and the
computed row pitch `total_bytes / height` equals 4, so the `NonZeroU32`
`bytes_per_row` of the layout is `Some 4`. -/
theorem boundary_1x1 (screen : Nat → Nat → Nat) (self : EmulatorWindow)
    (_hw : self.width = 1) (hh : self.height = 1)
    (hd : self.data.length = 1 * 1 * 4) :
    (updateData screen self.width self.height self.data).length = 4 ∧
    (imgLayout
        { self with data := updateData screen self.width self.height self.data }).bytes_per_row
      = some 4 := by
  have hl : (updateData screen self.width self.height self.data).length = 4 := by
    rw [updateData_length, hd]
  refine ⟨hl, ?_⟩
  show NonZeroU32.new
      (((updateData screen self.width self.height self.data).length % U32LIMIT)
        / (self.height % U32LIMIT)) = some 4
  rw [hl, hh]
  decide

theorem boundary_1x1_witness :
    (smallWindow.width = 1 ∧ smallWindow.height = 1 ∧
     smallWindow.data.length = 1 * 1 * 4) ∧
    ((updateData zeroScreen smallWindow.width smallWindow.height smallWindow.data).length = 4 ∧
     (imgLayout
        { smallWindow with
          data := updateData zeroScreen smallWindow.width smallWindow.height
            smallWindow.data }).bytes_per_row = some 4) :=
  ⟨⟨rfl, rfl, rfl⟩, boundary_1x1 zeroScreen smallWindow rfl rfl rfl⟩

/-- C5: running the conversion-and-upload step (`EmulatorWindow::update`)
twice in a row against the same unchanged framebuffer produces identical
RGBA buffer contents both times, and the result does not depend on the
buffer's prior contents (no accumulation or blending). -/
theorem update_idempotent (self1 self2 : EmulatorWindow) (screen : Nat → Nat → Nat)
    (renderer : Renderer)
    (hw : self2.width = self1.width) (hh : self2.height = self1.height)
    (h1 : self1.data.length = self1.width * self1.height * 4)
    (h2 : self2.data.length = self1.width * self1.height * 4) :
    ((update ((update self1 screen renderer).1) screen renderer).1).data
        = ((update self1 screen renderer).1).data ∧
    ((update self2 screen renderer).1).data = ((update self1 screen renderer).1).data := by
  constructor
  · show updateData screen self1.width self1.height
        (updateData screen self1.width self1.height self1.data)
      = updateData screen self1.width self1.height self1.data
    exact updateData_ext screen self1.width self1.height _ _
      (by rw [updateData_length]; exact h1) h1
  · show updateData screen self2.width self2.height self2.data
      = updateData screen self1.width self1.height self1.data
    rw [hw, hh]
    exact updateData_ext screen self1.width self1.height _ _ h2 h1

theorem update_idempotent_witness :
    (smallWindow2.width = smallWindow.width ∧ smallWindow2.height = smallWindow.height ∧
     smallWindow.data.length = smallWindow.width * smallWindow.height * 4 ∧
     smallWindow2.data.length = smallWindow.width * smallWindow.height * 4) ∧
    (((update ((update smallWindow zeroScreen emptyRenderer).1) zeroScreen emptyRenderer).1).data
        = ((update smallWindow zeroScreen emptyRenderer).1).data ∧
     ((update smallWindow2 zeroScreen emptyRenderer).1).data
        = ((update smallWindow zeroScreen emptyRenderer).1).data) :=
  ⟨⟨rfl, rfl, rfl, rfl⟩,
   update_idempotent smallWindow smallWindow2 zeroScreen emptyRenderer rfl rfl rfl rfl⟩

/-- C6: for a 64×32 framebuffer with every pixel unset except (0,0) and
(63,31), the converted RGBA buffer has bytes `[255,255,255,255]` at byte
offsets 0 and `(31*4*64)+(63*4)`, and `[0,0,0,255]` at every other pixel
offset. -/
theorem two_pixel_scenario (d : List Nat) (hd : d.length = 64 * 32 * 4) :
    ((updateData screenTwoPixels 64 32 d)[0]? = some 255 ∧
     (updateData screenTwoPixels 64 32 d)[1]? = some 255 ∧
     (updateData screenTwoPixels 64 32 d)[2]? = some 255 ∧
     (updateData screenTwoPixels 64 32 d)[3]? = some 255) ∧
    ((updateData screenTwoPixels 64 32 d)[31 * 4 * 64 + 63 * 4]? = some 255 ∧
     (updateData screenTwoPixels 64 32 d)[31 * 4 * 64 + 63 * 4 + 1]? = some 255 ∧
     (updateData screenTwoPixels 64 32 d)[31 * 4 * 64 + 63 * 4 + 2]? = some 255 ∧
     (updateData screenTwoPixels 64 32 d)[31 * 4 * 64 + 63 * 4 + 3]? = some 255) ∧
    (∀ x y, x < 64 → y < 32 → ¬((x = 0 ∧ y = 0) ∨ (x = 63 ∧ y = 31)) →
      ((updateData screenTwoPixels 64 32 d)[y * 4 * 64 + x * 4]? = some 0 ∧
       (updateData screenTwoPixels 64 32 d)[y * 4 * 64 + x * 4 + 1]? = some 0 ∧
       (updateData screenTwoPixels 64 32 d)[y * 4 * 64 + x * 4 + 2]? = some 0 ∧
       (updateData screenTwoPixels 64 32 d)[y * 4 * 64 + x * 4 + 3]? = some 255)) := by
  refine ⟨⟨?_, ?_, ?_, ?_⟩, ⟨?_, ?_, ?_, ?_⟩, ?_⟩
  · simpa [pixelByte, screenTwoPixels] using
      updateData_getElem screenTwoPixels 64 32 d 0 0 0 (by omega) (by omega) (by omega) hd
  · simpa [pixelByte, screenTwoPixels] using
      updateData_getElem screenTwoPixels 64 32 d 0 0 1 (by omega) (by omega) (by omega) hd
  · simpa [pixelByte, screenTwoPixels] using
      updateData_getElem screenTwoPixels 64 32 d 0 0 2 (by omega) (by omega) (by omega) hd
  · simpa using
      updateData_getElem screenTwoPixels 64 32 d 0 0 3 (by omega) (by omega) (by omega) hd
  · simpa [pixelByte, screenTwoPixels] using
      updateData_getElem screenTwoPixels 64 32 d 63 31 0 (by omega) (by omega) (by omega) hd
  · simpa [pixelByte, screenTwoPixels] using
      updateData_getElem screenTwoPixels 64 32 d 63 31 1 (by omega) (by omega) (by omega) hd
  · simpa [pixelByte, screenTwoPixels] using
      updateData_getElem screenTwoPixels 64 32 d 63 31 2 (by omega) (by omega) (by omega) hd
  · simpa using
      updateData_getElem screenTwoPixels 64 32 d 63 31 3 (by omega) (by omega) (by omega) hd
  · intro x y hx hy hne
    have hpix : pixelByte screenTwoPixels x y = 0 := by
      simp [pixelByte, screenTwoPixels, hne]
    refine ⟨?_, ?_, ?_, ?_⟩
    · simpa [hpix] using
        updateData_getElem screenTwoPixels 64 32 d x y 0 hx hy (by omega) hd
    · simpa [hpix] using
        updateData_getElem screenTwoPixels 64 32 d x y 1 hx hy (by omega) hd
    · simpa [hpix] using
        updateData_getElem screenTwoPixels 64 32 d x y 2 hx hy (by omega) hd
    · simpa using
        updateData_getElem screenTwoPixels 64 32 d x y 3 hx hy (by omega) hd

theorem two_pixel_scenario_witness :
    (List.replicate (64 * 32 * 4) 0).length = 64 * 32 * 4 ∧
    (((updateData screenTwoPixels 64 32 (List.replicate (64 * 32 * 4) 0))[0]? = some 255 ∧
      (updateData screenTwoPixels 64 32 (List.replicate (64 * 32 * 4) 0))[1]? = some 255 ∧
      (updateData screenTwoPixels 64 32 (List.replicate (64 * 32 * 4) 0))[2]? = some 255 ∧
      (updateData screenTwoPixels 64 32 (List.replicate (64 * 32 * 4) 0))[3]? = some 255) ∧
     ((updateData screenTwoPixels 64 32
          (List.replicate (64 * 32 * 4) 0))[31 * 4 * 64 + 63 * 4]? = some 255 ∧
      (updateData screenTwoPixels 64 32
          (List.replicate (64 * 32 * 4) 0))[31 * 4 * 64 + 63 * 4 + 1]? = some 255 ∧
      (updateData screenTwoPixels 64 32
          (List.replicate (64 * 32 * 4) 0))[31 * 4 * 64 + 63 * 4 + 2]? = some 255 ∧
      (updateData screenTwoPixels 64 32
          (List.replicate (64 * 32 * 4) 0))[31 * 4 * 64 + 63 * 4 + 3]? = some 255) ∧
     (∀ x y, x < 64 → y < 32 → ¬((x = 0 ∧ y = 0) ∨ (x = 63 ∧ y = 31)) →
       ((updateData screenTwoPixels 64 32
            (List.replicate (64 * 32 * 4) 0))[y * 4 * 64 + x * 4]? = some 0 ∧
        (updateData screenTwoPixels 64 32
            (List.replicate (64 * 32 * 4) 0))[y * 4 * 64 + x * 4 + 1]? = some 0 ∧
        (updateData screenTwoPixels 64 32
            (List.replicate (64 * 32 * 4) 0))[y * 4 * 64 + x * 4 + 2]? = some 0 ∧
        (updateData screenTwoPixels 64 32
            (List.replicate (64 * 32 * 4) 0))[y * 4 * 64 + x * 4 + 3]? = some 255))) :=
  ⟨List.length_replicate _ _,
   two_pixel_scenario (List.replicate (64 * 32 * 4) 0) (List.length_replicate _ _)⟩

/-- C7: the texture created by `EmulatorWindow::create_texture` is
configured with exactly: `Rgba8Unorm` format, `mip_level_count` 1,
`sample_count` 1, 2D-dimensionality, extent `width×height×1`, usage
`SAMPLED | COPY_DST` — and `EmulatorWindow::new` inserts exactly this one
texture into the renderer's pool, at construction. -/
theorem texture_created_once (r : Renderer) :
    ((EmulatorWindow.new r).2).textures.get ((EmulatorWindow.new r).1).tex_id
      = some createdTexture ∧
    ((EmulatorWindow.new r).2).textures.map
      = (r.textures.next_id, createdTexture) :: r.textures.map ∧
    ((EmulatorWindow.new r).2).textures.map.length = r.textures.map.length + 1 := by
  refine ⟨?_, rfl, rfl⟩
  show (((r.textures.next_id, createdTexture) :: r.textures.map).find?
      (fun p => p.1 == r.textures.next_id)).map (fun p => p.2) = some createdTexture
  rw [List.find?_cons_of_pos _ (by simp)]
  rfl

/-- C9: at the public interface an invalid texture handle is silently
ignored: `EmulatorWindow::update` discards the `Option` result of
`update_texture`, so when the handle lookup fails the call still mutates
`self.data` via the conversion loop, reports no error to the caller, and
performs no upload (the discarded result was `None`). -/
theorem update_ignores_invalid_handle (self : EmulatorWindow) (screen : Nat → Nat → Nat)
    (renderer : Renderer) (hget : renderer.textures.get self.tex_id = none) :
    update self screen renderer
      = ({ self with data := updateData screen self.width self.height self.data },
         [GpuOp.createBufferInit (updateData screen self.width self.height self.data)]) ∧
    GpuOp.submit ∉ (update self screen renderer).2 ∧
    (update_texture { self with data := updateData screen self.width self.height self.data }
        self.tex_id renderer).1 = none := by
  have he : update_texture
        { self with data := updateData screen self.width self.height self.data }
        self.tex_id renderer
      = (none,
         [GpuOp.createBufferInit (updateData screen self.width self.height self.data)]) := by
    unfold update_texture
    rw [hget]
  refine ⟨?_, ?_, by rw [he]⟩
  · show ({ self with data := updateData screen self.width self.height self.data },
        (update_texture { self with data := updateData screen self.width self.height self.data }
          self.tex_id renderer).2) = _
    rw [he]
  · show GpuOp.submit ∉
      (update_texture { self with data := updateData screen self.width self.height self.data }
        self.tex_id renderer).2
    rw [he]
    simp

theorem update_ignores_invalid_handle_witness :
    emptyRenderer.textures.get smallWindow.tex_id = none ∧
    (update smallWindow zeroScreen emptyRenderer
        = ({ smallWindow with
             data := updateData zeroScreen smallWindow.width smallWindow.height
               smallWindow.data },
           [GpuOp.createBufferInit
             (updateData zeroScreen smallWindow.width smallWindow.height smallWindow.data)]) ∧
     GpuOp.submit ∉ (update smallWindow zeroScreen emptyRenderer).2 ∧
     (update_texture
        { smallWindow with
          data := updateData zeroScreen smallWindow.width smallWindow.height
            smallWindow.data }
        smallWindow.tex_id emptyRenderer).1 = none) :=
  ⟨rfl, update_ignores_invalid_handle smallWindow zeroScreen emptyRenderer rfl⟩
